import Mathlib

/-!
Shallow embedding of the workload lifecycle orchestrator of
projectatomic/ai-studio (files `packages/backend/src/managers/applicationManager.ts`
and `packages/backend/src/workers/provider/LlamaCppPython.ts`), together with
theorems settling the specification claims about it.

External collaborators (container engine, pod manager, task ledger, GPU
enumeration, free-port allocation, model utilities) are modelled either as
function parameters quantified in the theorems or as definitions whose doc
comment marks them as modelled from the specification.
-/

namespace AIStudio

/-! ## Identity labels (applicationManager.ts, lines 56-60) -/

def LABEL_MODEL_ID : String := "ai-lab-model-id"

def LABEL_MODEL_PORTS : String := "ai-lab-model-ports"

def LABEL_RECIPE_ID : String := "ai-lab-recipe-id"

def LABEL_APP_PORTS : String := "ai-lab-app-ports"

/-! ## Engine-side pod data (the fields of `PodInfo` the orchestrator reads) -/

structure PodInfo where
  Id : String
  engineId : String
  Labels : List (String × String)
  Status : String
  deriving DecidableEq, Repr

/-- Modelled from the spec: the pod manager's `findPodByLabelsValues`
(`PodManager.ts`, not under `src/`) returns an engine pod whose label mapping
carries every requested key/value pair — "list resources filtered by label
presence" (§6). -/
def findPodByLabelsValues (query : List (String × String)) (pods : List PodInfo) :
    Option PodInfo :=
  pods.find? (fun pod => query.all (fun kv => pod.Labels.lookup kv.fst = some kv.snd))

/-- `hasApplicationPod` (applicationManager.ts, lines 814-820).  The source
builds the query object with the literal property keys `LABEL_RECIPE_ID` and
`LABEL_MODEL_ID` (plain identifiers, not computed `[LABEL_RECIPE_ID]` keys), so
the pod manager is asked for the label keys `"LABEL_RECIPE_ID"` /
`"LABEL_MODEL_ID"`. -/
def hasApplicationPod (recipeId modelId : String) (pods : List PodInfo) : Bool :=
  (findPodByLabelsValues [("LABEL_RECIPE_ID", recipeId), ("LABEL_MODEL_ID", modelId)]
    pods).isSome

/-- `findPod` (applicationManager.ts, lines 822-827): unlike `hasApplicationPod`
it queries with the computed label keys `[LABEL_RECIPE_ID]` / `[LABEL_MODEL_ID]`,
i.e. the actual identity labels. -/
def findPod (recipeId modelId : String) (pods : List PodInfo) : Option PodInfo :=
  findPodByLabelsValues [(LABEL_RECIPE_ID, recipeId), (LABEL_MODEL_ID, modelId)] pods

/-- A pod exactly as `createPod` labels it for recipe `r1` and model `m1`. -/
def c1Pod : PodInfo :=
  { Id := "pod-1"
    engineId := "engine-1"
    Labels := [(LABEL_RECIPE_ID, "r1"), (LABEL_MODEL_ID, "m1")]
    Status := "Running" }

/-- Claim C1 (code-bug evidence): the engine holds exactly the pod that
`createPod` labels for recipe `r1` and model `m1` — `findPod`, which queries the
computed identity-label keys, locates it — yet `hasApplicationPod`, the
existing-pod check of `initApplication` (line 240), returns `false` on the very
same engine state because it queries the literal label keys
`"LABEL_RECIPE_ID"` / `"LABEL_MODEL_ID"`; consequently the
`removeApplication` call of line 241 is skipped and `createApplicationPod` runs
with the old pod still present. -/
theorem hasApplicationPod_misses_identity_labels :
    (findPod "r1" "m1" [c1Pod]).isSome = true ∧
    hasApplicationPod "r1" "m1" [c1Pod] = false := by
  decide

/-! ## Claim C7: waitContainerIsRunning (applicationManager.ts, lines 278-289) -/

def TIME_FRAME_MS : Nat := 5000

def MAX_ATTEMPTS : Nat := 60 * (60000 / TIME_FRAME_MS)

/-- Loop body of `waitContainerIsRunning`: attempt `i` inspects the container
(`running i`), returns when it is running, otherwise sleeps `TIME_FRAME_MS` and
retries; after the fuel (`MAX_ATTEMPTS`) is exhausted the error of line 288 is
thrown.  The returned number is the index of the succeeding attempt. -/
def waitGo (running : Nat → Bool) (containerId : String) :
    Nat → Nat → Except String Nat
  | 0, _ => Except.error ("Container " ++ containerId ++ " not started in time")
  | Nat.succ fuel, i => if running i then Except.ok i else waitGo running containerId fuel (i + 1)

/-- `waitContainerIsRunning` over the observation sequence `running`
(`running i` = the `State.Running` flag seen by the inspect call of attempt
`i`). -/
def waitContainerIsRunning (containerId : String) (running : Nat → Bool) :
    Except String Nat :=
  waitGo running containerId MAX_ATTEMPTS 0

theorem waitGo_ok_iff (running : Nat → Bool) (cid : String) :
    ∀ (fuel start i : Nat),
      waitGo running cid fuel start = Except.ok i ↔
        (start ≤ i ∧ i < start + fuel ∧ running i = true ∧
          ∀ j, start ≤ j → j < i → running j = false) := by
  intro fuel
  induction fuel with
  | zero =>
    intro start i
    simp [waitGo]
    intro h1 h2
    omega
  | succ n ih =>
    intro start i
    by_cases h : running start = true
    · simp only [waitGo, h, if_pos]
      constructor
      · intro hok
        have : start = i := by
          simpa using hok
        subst this
        refine ⟨le_refl _, by omega, h, ?_⟩
        intro j hj1 hj2
        omega
      · rintro ⟨h1, _, _, h4⟩
        rcases Nat.eq_or_lt_of_le h1 with heq | hlt
        · rw [heq]
        · exact absurd h (by simpa using h4 start (le_refl _) hlt)
    · have hfalse : running start = false := by
        cases hr : running start
        · rfl
        · exact absurd hr h
      simp only [waitGo, hfalse]
      rw [if_neg (by simp)]
      rw [ih (start + 1) i]
      constructor
      · rintro ⟨h1, h2, h3, h4⟩
        refine ⟨by omega, by omega, h3, ?_⟩
        intro j hj1 hj2
        rcases Nat.eq_or_lt_of_le hj1 with heq | hlt
        · rw [← heq]; exact hfalse
        · exact h4 j hlt hj2
      · rintro ⟨h1, h2, h3, h4⟩
        have hne : start ≠ i := by
          intro heq
          rw [← heq] at h3
          rw [hfalse] at h3
          exact Bool.false_ne_true h3
        refine ⟨by omega, by omega, h3, ?_⟩
        intro j hj1 hj2
        exact h4 j (by omega) hj2

theorem waitGo_error_iff (running : Nat → Bool) (cid : String) :
    ∀ (fuel start : Nat),
      (∃ msg, waitGo running cid fuel start = Except.error msg) ↔
        ∀ i, start ≤ i → i < start + fuel → running i = false := by
  intro fuel
  induction fuel with
  | zero =>
    intro start
    simp [waitGo]
    intro i h1 h2
    omega
  | succ n ih =>
    intro start
    by_cases h : running start = true
    · simp only [waitGo, h, if_pos]
      constructor
      · rintro ⟨msg, hmsg⟩
        exact absurd hmsg (by simp)
      · intro hall
        have := hall start (le_refl _) (by omega)
        rw [h] at this
        exact absurd this (by simp)
    · have hfalse : running start = false := by
        cases hr : running start
        · rfl
        · exact absurd hr h
      simp only [waitGo, hfalse]
      rw [if_neg (by simp)]
      rw [ih (start + 1)]
      constructor
      · intro hall i h1 h2
        rcases Nat.eq_or_lt_of_le h1 with heq | hlt
        · rw [← heq]; exact hfalse
        · exact hall i hlt (by omega)
      · intro hall i h1 h2
        exact hall i (by omega) (by omega)

/-- Claim C7: the per-container readiness wait polls the running status at a
fixed 5-second interval with a bounded number of attempts whose total
wall-clock ceiling is one hour (720 attempts of 5000 ms = 3 600 000 ms),
returns at the first attempt observing the container running, and fails with
the startup-timeout error exactly when no attempt within the ceiling observes
it running — in particular the wait always terminates, the loop being bounded
by `MAX_ATTEMPTS`. -/
theorem waitContainerIsRunning_spec (containerId : String) (running : Nat → Bool) :
    TIME_FRAME_MS = 5000 ∧
    MAX_ATTEMPTS * TIME_FRAME_MS = 3600000 ∧
    (∀ i, waitContainerIsRunning containerId running = Except.ok i ↔
      (i < MAX_ATTEMPTS ∧ running i = true ∧ ∀ j, j < i → running j = false)) ∧
    (waitContainerIsRunning containerId running =
        Except.error ("Container " ++ containerId ++ " not started in time") ↔
      ∀ i, i < MAX_ATTEMPTS → running i = false) := by
  refine ⟨rfl, rfl, ?_, ?_⟩
  · intro i
    rw [waitContainerIsRunning, waitGo_ok_iff]
    constructor
    · rintro ⟨_, h2, h3, h4⟩
      exact ⟨by simpa using h2, h3, fun j hj => h4 j (Nat.zero_le _) hj⟩
    · rintro ⟨h1, h2, h3⟩
      exact ⟨Nat.zero_le _, by simpa using h1, h2, fun j _ hj => h3 j hj⟩
  · constructor
    · intro herr
      have : ∃ msg, waitGo running containerId MAX_ATTEMPTS 0 = Except.error msg :=
        ⟨_, herr⟩
      rw [waitGo_error_iff] at this
      intro i hi
      exact this i (Nat.zero_le _) (by simpa using hi)
    · intro hall
      have : ∀ i, 0 ≤ i → i < 0 + MAX_ATTEMPTS → running i = false := by
        intro i _ hi
        exact hall i (by simpa using hi)
      rw [← waitGo_error_iff running containerId MAX_ATTEMPTS 0] at this
      rcases this with ⟨msg, hmsg⟩
      have : msg = "Container " ++ containerId ++ " not started in time" := by
        rcases hfe : waitGo running containerId MAX_ATTEMPTS 0 with msg2 | v
        · have hmem : ∀ (fuel start : Nat) (m : String),
              waitGo running containerId fuel start = Except.error m →
              m = "Container " ++ containerId ++ " not started in time" := by
            intro fuel
            induction fuel with
            | zero =>
              intro start m hm
              simpa [waitGo] using hm.symm
            | succ n ih =>
              intro start m hm
              rw [waitGo] at hm
              by_cases h : running start = true
              · rw [if_pos h] at hm
                exact absurd hm (by simp)
              · rw [if_neg h] at hm
                exact ih (start + 1) m hm
          rw [hfe] at hmsg
          have hmm : msg2 = msg := by
            simpa using hmsg
          rw [← hmm]
          exact hmem MAX_ATTEMPTS 0 msg2 hfe
        · rw [hfe] at hmsg
          exact absurd hmsg (by simp)
      rw [← this]
      exact hmsg

/-! ## LlamaCppPython inference provider (LlamaCppPython.ts) -/

structure ModelFile where
  file : String
  path : String
  deriving DecidableEq, Repr

structure ModelInfo where
  id : String
  file : Option ModelFile
  deriving DecidableEq, Repr

structure InferenceServerConfig where
  modelsInfo : List ModelInfo
  port : Nat
  gpuLayers : Option Int
  image : Option String
  labels : List (String × String)
  providerId : String
  deriving DecidableEq, Repr

structure Device where
  PathOnHost : String
  PathInContainer : String
  CgroupPermissions : String
  deriving DecidableEq, Repr

structure DeviceRequest where
  Capabilities : List (List String)
  Count : Int
  deriving DecidableEq, Repr

/-- A mount entry; the source field `Type` is spelled `MountType` because
`Type` is reserved in Lean.  `Mode` only appears on the mounts built by
`createContainerAndAttachToPod`. -/
structure Mount where
  Target : String
  Source : String
  MountType : String
  Mode : Option String := none
  deriving DecidableEq, Repr

/-- Health-check configuration; `Timeout` is only set by
`createContainerAndAttachToPod`, not by the inference provider. -/
structure HealthConfig where
  Test : List String
  Interval : Nat
  Retries : Nat
  HCTimeout : Option Nat := none
  deriving DecidableEq, Repr

structure EngineImageInfo where
  Id : String
  engineId : String
  deriving DecidableEq, Repr

structure GPUInfo where
  model : String
  deriving DecidableEq, Repr

def LLAMA_CPP_CPU : String := "ghcr.io/containers/llamacpp_python:latest"

def LLAMA_CPP_CUDA : String := "ghcr.io/containers/llamacpp_python_cuda:latest"

def SECOND : Nat := 1000000000

/-- Constant imported from `utils/utils` (not under `src/`); its exact value is
irrelevant to every claim below — it only flows unchanged into `SecurityOpt`. -/
def DISABLE_SELINUX_LABEL_SECURITY_OPTION : String := "label=disable"

/-- Constant imported from `utils/inferenceUtils` (not under `src/`); it only
flows unchanged into the container labels. -/
def LABEL_INFERENCE_SERVER : String := "ai-lab-inference-server"

/-- `JSON.stringify` applied to an array of strings, as used for the
`LABEL_INFERENCE_SERVER` label value. -/
def jsonStringifyStringArray (xs : List String) : String :=
  "[" ++ String.intercalate "," (xs.map (fun s => "\"" ++ s ++ "\"")) ++ "]"

/-- Rendering of the template-string interpolation of `config.gpuLayers`
(an absent field renders as the text `undefined` in JavaScript). -/
def gpuLayersString : Option Int → String
  | some n => toString n
  | none => "undefined"

/-- The GPU-branch entrypoint argument (LlamaCppPython.ts, lines 111-114): a
shell command that symlinks the WSL driver libraries before invoking the normal
`run.sh` launch command. -/
def gpuShellCommand : String :=
  "/usr/bin/ln -s /usr/lib/wsl/lib/* /usr/lib64/ && PATH=\"${PATH}:/usr/lib/wsl/lib/\" && chmod 755 ./run.sh && ./run.sh"

/-- The GPU-branch bind-mount of the host driver directory. -/
def wslMount : Mount :=
  { Target := "/usr/lib/wsl", Source := "/usr/lib/wsl", MountType := "bind" }

/-- The GPU-branch device-capability request (`Count = -1` means all). -/
def gpuDeviceRequest : DeviceRequest :=
  { Capabilities := [["gpu"]], Count := -1 }

/-- The GPU-branch host device node exposure. -/
def dxgDevice : Device :=
  { PathOnHost := "/dev/dxg", PathInContainer := "/dev/dxg", CgroupPermissions := "r" }

/-- The fields the orchestrator fills in `ContainerCreateOptions`. -/
structure ContainerCreateOptions where
  Image : String
  Detach : Bool
  Entrypoint : Option String
  User : Option String
  ExposedPorts : List String
  AutoRemove : Bool
  Devices : List Device
  Mounts : List Mount
  DeviceRequests : List DeviceRequest
  SecurityOpt : List String
  PortBindings : List (String × List String)
  HealthCheck : Option HealthConfig
  Labels : List (String × String)
  Env : List String
  Cmd : List String
  deriving DecidableEq, Repr, Inhabited

/-- `getContainerCreateOptions` (LlamaCppPython.ts, lines 52-150).
`modelProps` stands for `getModelPropertiesForEnvironment` (utility outside
`src/`), quantified in every theorem using this definition. -/
def getContainerCreateOptions (modelProps : ModelInfo → List String)
    (config : InferenceServerConfig) (imageInfo : EngineImageInfo)
    (gpu : Option GPUInfo) : Except String ContainerCreateOptions :=
  match config.modelsInfo with
  | [] => Except.error "Need at least one model info to start an inference server."
  | _ :: _ :: _ =>
    Except.error "Currently the inference server does not support multiple models serving."
  | [modelInfo] =>
    match modelInfo.file with
    | none => Except.error "The model info file provided is undefined"
    | some file =>
      let baseEnvs : List String :=
        ["MODEL_PATH=/models/" ++ file.file, "HOST=0.0.0.0", "PORT=8000"] ++
          modelProps modelInfo
      let baseMounts : List Mount :=
        [{ Target := "/models", Source := file.path, MountType := "bind" }]
      Except.ok
        { Image := imageInfo.Id
          Detach := true
          Entrypoint := if gpu.isSome then some "/usr/bin/sh" else none
          User := if gpu.isSome then some "0" else none
          ExposedPorts := [toString config.port]
          AutoRemove := false
          Devices := if gpu.isSome then [dxgDevice] else []
          Mounts := if gpu.isSome then baseMounts ++ [wslMount] else baseMounts
          DeviceRequests := if gpu.isSome then [gpuDeviceRequest] else []
          SecurityOpt := [DISABLE_SELINUX_LABEL_SECURITY_OPTION]
          PortBindings := [("8000/tcp", [toString config.port])]
          HealthCheck := some
            { Test := ["CMD-SHELL", "curl -sSf localhost:8000/docs > /dev/null"]
              Interval := SECOND * 5
              Retries := 4 * 5 }
          Labels := config.labels ++
            [(LABEL_INFERENCE_SERVER,
              jsonStringifyStringArray (config.modelsInfo.map (fun m => m.id)))]
          Env := if gpu.isSome then baseEnvs ++ ["GPU_LAYERS=" ++ gpuLayersString config.gpuLayers]
                 else baseEnvs
          Cmd := if gpu.isSome then ["-c", gpuShellCommand] else [] }

/-- Engine-visible effects of `perform`, in execution order. -/
inductive Effect where
  | collectGPUs : Effect
  | pullImage : String → Effect
  | createContainer : String → Effect
  deriving DecidableEq, Repr

structure BetterContainerCreateResult where
  id : String
  engineId : String
  deriving DecidableEq, Repr

/-- The GPU `perform` selects (LlamaCppPython.ts, lines 155-164): when
`config.gpuLayers ?? 0` is non-zero the first enumerated GPU, otherwise none. -/
def chosenGPU (gpus : List GPUInfo) (config : InferenceServerConfig) : Option GPUInfo :=
  if config.gpuLayers.getD 0 != 0 then gpus.head? else none

/-- `perform` (LlamaCppPython.ts, lines 152-178) as a result plus the ordered
trace of engine effects.  `gpus` is the result of `gpuManager.collectGPUs`,
`pulled` the engine image returned by `pullImage`, `createdId` the container id
the engine assigns. -/
def perform (modelProps : ModelInfo → List String) (gpus : List GPUInfo)
    (pulled : String → EngineImageInfo) (createdId : String)
    (config : InferenceServerConfig) :
    Except String BetterContainerCreateResult × List Effect :=
  let wantGPU : Bool := config.gpuLayers.getD 0 != 0
  if wantGPU && gpus.isEmpty then
    (Except.error "no gpu was found.", [Effect.collectGPUs])
  else
    let gpu := chosenGPU gpus config
    let imageName := config.image.getD (if gpu.isSome then LLAMA_CPP_CUDA else LLAMA_CPP_CPU)
    let imageInfo := pulled imageName
    let preTrace := (if wantGPU then [Effect.collectGPUs] else []) ++ [Effect.pullImage imageName]
    match getContainerCreateOptions modelProps config imageInfo gpu with
    | Except.error e => (Except.error e, preTrace)
    | Except.ok _ =>
      (Except.ok { id := createdId, engineId := imageInfo.engineId },
        preTrace ++ [Effect.createContainer imageInfo.engineId])

/-! ## Concrete inputs for the provider claims -/

def c4Model : ModelInfo :=
  { id := "m1", file := some { file := "model.gguf", path := "/models/dir" } }

def c4Config : InferenceServerConfig :=
  { modelsInfo := [c4Model], port := 8080, gpuLayers := some 1,
    image := some "custom-image", labels := [], providerId := "p1" }

def c4Gpus : List GPUInfo := [{ model := "gpu-a" }, { model := "gpu-b" }]

def c4Pulled : String → EngineImageInfo :=
  fun name => { Id := name, engineId := "engine-1" }

/-- Claim C4 as written, GPU branch: with `gpuLayers > 0` and more than one
GPU enumerated, the image `perform` pulls is the GPU image. -/
def c4GpuImageAsWritten : Prop :=
  ∀ (modelProps : ModelInfo → List String) (gpus : List GPUInfo)
    (pulled : String → EngineImageInfo) (createdId : String)
    (config : InferenceServerConfig),
    0 < config.gpuLayers.getD 0 → 1 < gpus.length →
    Effect.pullImage LLAMA_CPP_CUDA ∈
      (perform modelProps gpus pulled createdId config).snd

/-- Claim C4 (counterexample): a configuration with `gpuLayers = 1` and an
image override `custom-image`, against two enumerated GPUs, makes `perform`
pull `custom-image` and never the GPU image — the override takes precedence
over the GPU image on the GPU branch as well. -/
theorem perform_gpu_image_counterexample : ¬ c4GpuImageAsWritten := by
  intro h
  have hc := h (fun _ => []) c4Gpus c4Pulled "c1" c4Config (by decide) (by decide)
  revert hc
  decide

/-- Claim C4 (amended: on the multi-GPU branch the GPU image is selected
unless an image override is given): for every inference-server configuration,
(1) if `gpuLayers > 0` and GPU enumeration returns zero GPUs, `perform` fails
with the no-GPU error after the sole effect `collectGPUs` — before any image
pull or container creation; (2) if `gpuLayers > 0` and at least one GPU is
enumerated, the first enumerated GPU is the one used and the pulled image is
the image override if given, the GPU image otherwise; (3) if `gpuLayers` is
absent or `0`, no GPU enumeration occurs, the result is independent of the
enumerated GPUs, and the pulled image is the image override if given, the CPU
image otherwise. -/
theorem perform_gpu_selection_spec (modelProps : ModelInfo → List String)
    (gpus : List GPUInfo) (pulled : String → EngineImageInfo) (createdId : String)
    (config : InferenceServerConfig) :
    (0 < config.gpuLayers.getD 0 → gpus = [] →
      perform modelProps gpus pulled createdId config =
        (Except.error "no gpu was found.", [Effect.collectGPUs])) ∧
    (0 < config.gpuLayers.getD 0 → ∀ g rest, gpus = g :: rest →
      chosenGPU gpus config = some g ∧
      Effect.pullImage (config.image.getD LLAMA_CPP_CUDA) ∈
        (perform modelProps gpus pulled createdId config).snd) ∧
    (config.gpuLayers.getD 0 = 0 →
      Effect.collectGPUs ∉ (perform modelProps gpus pulled createdId config).snd ∧
      Effect.pullImage (config.image.getD LLAMA_CPP_CPU) ∈
        (perform modelProps gpus pulled createdId config).snd ∧
      perform modelProps gpus pulled createdId config =
        perform modelProps [] pulled createdId config) := by
  refine ⟨?_, ?_, ?_⟩
  · intro hpos hempty
    have hw : (config.gpuLayers.getD 0 != 0) = true := by
      rw [bne_iff_ne]
      omega
    simp [perform, hw, hempty]
  · intro hpos g rest hgpus
    have hw : (config.gpuLayers.getD 0 != 0) = true := by
      rw [bne_iff_ne]
      omega
    have hch : chosenGPU gpus config = some g := by
      simp [chosenGPU, hw, hgpus]
    refine ⟨hch, ?_⟩
    rcases hres : getContainerCreateOptions modelProps config
        (pulled (config.image.getD LLAMA_CPP_CUDA)) (some g) with e | o
    · simp [perform, hw, hgpus, chosenGPU, hres]
    · simp [perform, hw, hgpus, chosenGPU, hres]
  · intro hzero
    have hw : (config.gpuLayers.getD 0 != 0) = false := by
      simp [hzero]
    have hch : chosenGPU gpus config = none := by
      simp [chosenGPU, hw]
    rcases hres : getContainerCreateOptions modelProps config
        (pulled (config.image.getD LLAMA_CPP_CPU)) none with e | o
    · refine ⟨?_, ?_, ?_⟩ <;>
        simp [perform, hw, chosenGPU, hres]
    · refine ⟨?_, ?_, ?_⟩ <;>
        simp [perform, hw, chosenGPU, hres]

/-- Witness for `perform_gpu_selection_spec`: the concrete configuration with
`gpuLayers = 1` against an empty GPU enumeration fails with the no-GPU error
and the trace contains neither a pull nor a container creation. -/
theorem perform_gpu_selection_spec_witness :
    perform (fun _ => []) [] c4Pulled "c1" c4Config =
      (Except.error "no gpu was found.", [Effect.collectGPUs]) :=
  (perform_gpu_selection_spec (fun _ => []) [] c4Pulled "c1" c4Config).1 (by decide) rfl

/-- Claim C5: in the built container specification the GPU-present branch
unconditionally implies, together: the bind-mount of the host driver directory
`/usr/lib/wsl`, the GPU device-capability request, the exposure of the host
device node `/dev/dxg`, the entrypoint override to `/usr/bin/sh` running the
driver-symlinking shell command before the normal launch command, and running
as the root user (`0`); and the GPU-absent branch implies none of them. -/
theorem getContainerCreateOptions_gpu_branch (modelProps : ModelInfo → List String)
    (config : InferenceServerConfig) (img : EngineImageInfo) (g : GPUInfo)
    (opts opts2 : ContainerCreateOptions) :
    (getContainerCreateOptions modelProps config img (some g) = Except.ok opts →
      wslMount ∈ opts.Mounts ∧ opts.DeviceRequests = [gpuDeviceRequest] ∧
      opts.Devices = [dxgDevice] ∧ opts.Entrypoint = some "/usr/bin/sh" ∧
      opts.Cmd = ["-c", gpuShellCommand] ∧ opts.User = some "0") ∧
    (getContainerCreateOptions modelProps config img none = Except.ok opts2 →
      wslMount ∉ opts2.Mounts ∧ opts2.DeviceRequests = [] ∧ opts2.Devices = [] ∧
      opts2.Entrypoint = none ∧ opts2.Cmd = [] ∧ opts2.User = none) := by
  rcases hmi : config.modelsInfo with _ | ⟨m, tail⟩
  · constructor <;> intro h <;> simp [getContainerCreateOptions, hmi] at h
  · rcases tail with _ | ⟨m2, rest⟩
    · rcases hf : m.file with _ | f
      · constructor <;> intro h <;>
          simp [getContainerCreateOptions, hmi, hf] at h
      · constructor <;> intro h
        · simp only [getContainerCreateOptions, hmi, hf] at h
          injection h with ho
          rw [← ho]
          refine ⟨?_, rfl, rfl, rfl, rfl, rfl⟩
          simp
        · simp only [getContainerCreateOptions, hmi, hf] at h
          injection h with ho
          rw [← ho]
          refine ⟨?_, rfl, rfl, rfl, rfl, rfl⟩
          simp [wslMount]
    · constructor <;> intro h <;>
        simp [getContainerCreateOptions, hmi] at h

def c5Img : EngineImageInfo := { Id := "img-1", engineId := "engine-1" }

def c5Gpu : GPUInfo := { model := "gpu-a" }

def c5Config : InferenceServerConfig :=
  { modelsInfo := [c4Model], port := 9000, gpuLayers := none,
    image := none, labels := [], providerId := "p1" }

/-- The options the provider builds for `c5Config` on the GPU branch. -/
def c5OptsGpu : ContainerCreateOptions :=
  match getContainerCreateOptions (fun _ => []) c5Config c5Img (some c5Gpu) with
  | Except.ok o => o
  | Except.error _ => default

/-- The options the provider builds for `c5Config` on the CPU branch. -/
def c5OptsCpu : ContainerCreateOptions :=
  match getContainerCreateOptions (fun _ => []) c5Config c5Img none with
  | Except.ok o => o
  | Except.error _ => default

/-- Witness for `getContainerCreateOptions_gpu_branch` at the concrete
single-model configuration `c5Config`, on both branches. -/
theorem getContainerCreateOptions_gpu_branch_witness :
    (wslMount ∈ c5OptsGpu.Mounts ∧ c5OptsGpu.DeviceRequests = [gpuDeviceRequest] ∧
      c5OptsGpu.Devices = [dxgDevice] ∧ c5OptsGpu.Entrypoint = some "/usr/bin/sh" ∧
      c5OptsGpu.Cmd = ["-c", gpuShellCommand] ∧ c5OptsGpu.User = some "0") ∧
    (wslMount ∉ c5OptsCpu.Mounts ∧ c5OptsCpu.DeviceRequests = [] ∧
      c5OptsCpu.Devices = [] ∧ c5OptsCpu.Entrypoint = none ∧
      c5OptsCpu.Cmd = [] ∧ c5OptsCpu.User = none) :=
  ⟨(getContainerCreateOptions_gpu_branch (fun _ => []) c5Config c5Img c5Gpu
      c5OptsGpu c5OptsCpu).1 rfl,
   (getContainerCreateOptions_gpu_branch (fun _ => []) c5Config c5Img c5Gpu
      c5OptsGpu c5OptsCpu).2 rfl⟩

/-- Claim C6: building the container specification fails with the dedicated
configuration error whenever zero models or more than one model are supplied,
or the single model's file reference is missing; and for every configuration
with exactly one model whose file reference is present it succeeds. -/
theorem getContainerCreateOptions_model_validation (modelProps : ModelInfo → List String)
    (config : InferenceServerConfig) (img : EngineImageInfo) (gpu : Option GPUInfo) :
    (config.modelsInfo = [] →
      getContainerCreateOptions modelProps config img gpu =
        Except.error "Need at least one model info to start an inference server.") ∧
    (1 < config.modelsInfo.length →
      getContainerCreateOptions modelProps config img gpu =
        Except.error "Currently the inference server does not support multiple models serving.") ∧
    (∀ m, config.modelsInfo = [m] → m.file = none →
      getContainerCreateOptions modelProps config img gpu =
        Except.error "The model info file provided is undefined") ∧
    (∀ m f, config.modelsInfo = [m] → m.file = some f →
      ∃ opts, getContainerCreateOptions modelProps config img gpu = Except.ok opts) := by
  refine ⟨?_, ?_, ?_, ?_⟩
  · intro h
    simp [getContainerCreateOptions, h]
  · intro h
    rcases hmi : config.modelsInfo with _ | ⟨m, _ | ⟨m2, rest⟩⟩
    · rw [hmi] at h
      simp at h
    · rw [hmi] at h
      simp at h
    · simp [getContainerCreateOptions, hmi]
  · intro m hm hf
    simp [getContainerCreateOptions, hm, hf]
  · intro m f hm hf
    simp [getContainerCreateOptions, hm, hf]

def c6ConfigZero : InferenceServerConfig :=
  { modelsInfo := [], port := 9000, gpuLayers := none,
    image := none, labels := [], providerId := "p1" }

def c6ConfigTwo : InferenceServerConfig :=
  { modelsInfo := [c4Model, { id := "m2", file := none }], port := 9000,
    gpuLayers := none, image := none, labels := [], providerId := "p1" }

def c6ConfigNoFile : InferenceServerConfig :=
  { modelsInfo := [{ id := "m3", file := none }], port := 9000,
    gpuLayers := none, image := none, labels := [], providerId := "p1" }

/-- Witness for `getContainerCreateOptions_model_validation` at four concrete
configurations, one per validation case. -/
theorem getContainerCreateOptions_model_validation_witness :
    getContainerCreateOptions (fun _ => []) c6ConfigZero c5Img none =
      Except.error "Need at least one model info to start an inference server." ∧
    getContainerCreateOptions (fun _ => []) c6ConfigTwo c5Img none =
      Except.error "Currently the inference server does not support multiple models serving." ∧
    getContainerCreateOptions (fun _ => []) c6ConfigNoFile c5Img none =
      Except.error "The model info file provided is undefined" ∧
    ∃ opts, getContainerCreateOptions (fun _ => []) c5Config c5Img none = Except.ok opts :=
  ⟨(getContainerCreateOptions_model_validation (fun _ => []) c6ConfigZero c5Img none).1 rfl,
   (getContainerCreateOptions_model_validation (fun _ => []) c6ConfigTwo c5Img none).2.1
     (by decide),
   (getContainerCreateOptions_model_validation (fun _ => []) c6ConfigNoFile c5Img none).2.2.1
     { id := "m3", file := none } rfl rfl,
   (getContainerCreateOptions_model_validation (fun _ => []) c5Config c5Img none).2.2.2
     c4Model { file := "model.gguf", path := "/models/dir" } rfl rfl⟩

/-! ## Application pipeline: images, pod creation, container attachment
(applicationManager.ts, lines 291-444) -/

/-- The fields of `Recipe` read by `createPod`. -/
structure Recipe where
  id : String
  name : String
  deriving DecidableEq, Repr

/-- `ImageInfo` (applicationManager.ts, lines 69-74): one built image per
filtered container; `ports` are the container ports the image declares. -/
structure ImageInfo where
  id : String
  modelService : Bool
  ports : List String
  appName : String
  deriving DecidableEq, Repr

structure PodCreatePortOptions where
  container_port : Nat
  host_port : Nat
  host_ip : String
  protocol : String
  range : Nat
  deriving DecidableEq, Repr

/-- The request handed to the pod manager's `createPod`. -/
structure PodCreateRequest where
  name : String
  portmappings : List PodCreatePortOptions
  labels : List (String × String)
  deriving DecidableEq, Repr

def digitVal (c : Char) : Option Nat :=
  if c.toNat ≥ 48 ∧ c.toNat ≤ 57 then some (c.toNat - 48) else none

def parseNatGo : List Char → Nat → Option Nat
  | [], acc => some acc
  | c :: rest, acc =>
    match digitVal c with
    | some d => parseNatGo rest (acc * 10 + d)
    | none => none

def parseNatList : List Char → Option Nat
  | [] => none
  | cs => parseNatGo cs 0

/-- `parseInt` on the numeric port strings the pipeline handles. -/
def parseIntNat (s : String) : Nat := (parseNatList s.data).getD 0

/-- Rendering of one element of a JavaScript `join(',')` over
`(number | undefined)` entries: `undefined` joins as the empty string. -/
def portEntryString : Option Nat → String
  | some n => toString n
  | none => ""

/-- `createPod` (applicationManager.ts, lines 393-444) as the request it sends
to the pod manager; an error result means the engine pod-creation call is never
reached (the throw of line 398 precedes it).  `rand` stands for
`getRandomName` and `resolvePort` for `getPortsInfo` (free-host-port
allocation), both outside `src/`. -/
def createPod (rand : String → String) (resolvePort : String → Option String)
    (recipe : Recipe) (model : ModelInfo) (images : List ImageInfo) :
    Except String PodCreateRequest :=
  match images.find? (fun image => !image.modelService) with
  | none => Except.error "no sample app found"
  | some sampleAppImageInfo =>
    let portmappings : List PodCreatePortOptions :=
      images.flatMap (fun image =>
        image.ports.filterMap (fun exposed =>
          (resolvePort exposed).map (fun localPorts =>
            { container_port := parseIntNat exposed
              host_port := parseIntNat localPorts
              host_ip := ""
              protocol := ""
              range := 1 })))
    let baseLabels : List (String × String) :=
      [(LABEL_RECIPE_ID, recipe.id), (LABEL_MODEL_ID, model.id)]
    let modelPorts : List (Option Nat) :=
      ((images.filter (fun img => img.modelService)).flatMap (fun img => img.ports)).map
        (fun port =>
          (portmappings.find? (fun pm => toString pm.container_port == port)).map
            (fun pm => pm.host_port))
    let appPorts : List (Option Nat) :=
      ((images.filter (fun img => !img.modelService)).flatMap (fun img => img.ports)).map
        (fun port =>
          (portmappings.find? (fun pm => toString pm.container_port == port)).map
            (fun pm => pm.host_port))
    let labels1 :=
      if 0 < modelPorts.length then
        baseLabels ++ [(LABEL_MODEL_PORTS,
          String.intercalate "," (modelPorts.map portEntryString))]
      else baseLabels
    let labels2 :=
      if 0 < appPorts.length then
        labels1 ++ [(LABEL_APP_PORTS,
          String.intercalate "," (appPorts.map portEntryString))]
      else labels1
    Except.ok
      { name := rand ("pod-" ++ sampleAppImageInfo.appName)
        portmappings := portmappings
        labels := labels2 }

/-- One container-create request of `createContainerAndAttachToPod`. -/
structure AttachedContainer where
  Image : String
  name : String
  Detach : Bool
  Mounts : List Mount
  Env : List String
  start : Bool
  pod : String
  HealthCheck : Option HealthConfig
  deriving DecidableEq, Repr

def splitSlash : List Char → List (List Char)
  | [] => [[]]
  | ch :: rest =>
    match splitSlash rest with
    | [] => [[]]
    | grp :: grps => if ch = '/' then [] :: grp :: grps else (ch :: grp) :: grps

/-- `path.basename` on the model path: the component after the last slash. -/
def basename (p : String) : String :=
  String.mk ((splitSlash p.data).getLastD p.data)

/-- The per-image body of the `images.map` of `createContainerAndAttachToPod`
(applicationManager.ts, lines 340-389).  `modelProps` stands for
`getModelPropertiesForEnvironment` and `rand` for `getRandomName`. -/
def attachContainer (modelProps : ModelInfo → List String) (rand : String → String)
    (isQEMUVM : Bool) (podInfo : PodInfo) (images : List ImageInfo)
    (modelInfo : ModelInfo) (modelPath : String) (image : ImageInfo) :
    AttachedContainer :=
  let modelName := basename modelPath
  let mounts : List Mount :=
    if image.modelService then
      [{ Target := "/" ++ modelName
         Source := modelPath
         MountType := "bind"
         Mode := if isQEMUVM then none else some "Z" }]
    else []
  let envs : List String :=
    if image.modelService then
      ("MODEL_PATH=/" ++ modelName) :: modelProps modelInfo
    else
      match images.find? (fun i => i.modelService) with
      | some ms =>
        if 0 < ms.ports.length then
          ["MODEL_ENDPOINT=http://localhost:" ++ ms.ports.headD ""]
        else []
      | none => []
  let healthcheck : Option HealthConfig :=
    if 0 < image.ports.length then
      some
        { Test := ["CMD-SHELL", "curl -s localhost:" ++ image.ports.headD "" ++ " > /dev/null"]
          Interval := SECOND * 5
          Retries := 4 * 5
          HCTimeout := some (SECOND * 2) }
    else none
  { Image := image.id
    name := rand (image.appName ++ "-podified")
    Detach := true
    Mounts := mounts
    Env := envs
    start := false
    pod := podInfo.Id
    HealthCheck := healthcheck }

/-- `createContainerAndAttachToPod`: one container-create request per image,
issued concurrently over `images`. -/
def createContainerAndAttachToPod (modelProps : ModelInfo → List String)
    (rand : String → String) (isQEMUVM : Bool) (podInfo : PodInfo)
    (images : List ImageInfo) (modelInfo : ModelInfo) (modelPath : String) :
    List AttachedContainer :=
  images.map (attachContainer modelProps rand isQEMUVM podInfo images modelInfo modelPath)

/-! ## Claims C2 and C10 -/

def c2MsImage : ImageInfo :=
  { id := "img-ms", modelService := true, ports := ["8000"], appName := "model-svc" }

def c2AppImage : ImageInfo :=
  { id := "img-app", modelService := false, ports := ["8501"], appName := "sample-app" }

def c2Images : List ImageInfo := [c2MsImage, c2AppImage]

/-- A free-host-port allocation mapping container port 8000 to host port 9000
and container port 8501 to host port 9501. -/
def c2Resolve : String → Option String :=
  fun p => if p = "8000" then some "9000" else if p = "8501" then some "9501" else none

def c2Pod : PodInfo :=
  { Id := "pod-2", engineId := "engine-1", Labels := [], Status := "Running" }

def c2Recipe : Recipe := { id := "r1", name := "recipe-one" }

/-- The pod-create request `createPod` builds for `c2Images` under
`c2Resolve`. -/
def c2Req : PodCreateRequest :=
  match createPod (fun s => s) c2Resolve c2Recipe c4Model c2Images with
  | Except.ok r => r
  | Except.error _ => { name := "", portmappings := [], labels := [] }

/-- Claim C2 as written, endpoint part: every application (non-model-service)
container receives a `MODEL_ENDPOINT` environment variable pointing at the
host port to which the model service's first declared port was resolved in the
pod-create request. -/
def c2EndpointAsWritten : Prop :=
  ∀ (modelProps : ModelInfo → List String) (rand rand2 : String → String)
    (isQEMUVM : Bool) (podInfo : PodInfo) (images : List ImageInfo)
    (modelInfo : ModelInfo) (modelPath : String)
    (resolvePort : String → Option String) (recipe : Recipe) (model : ModelInfo)
    (req : PodCreateRequest) (ms : ImageInfo),
    images.find? (fun i => i.modelService) = some ms →
    0 < ms.ports.length →
    createPod rand2 resolvePort recipe model images = Except.ok req →
    ∀ image ∈ images, image.modelService = false →
      (attachContainer modelProps rand isQEMUVM podInfo images modelInfo modelPath
          image).Env =
        ["MODEL_ENDPOINT=http://localhost:" ++
          portEntryString
            ((req.portmappings.find?
                (fun pm => toString pm.container_port == ms.ports.headD "")).map
              (fun pm => pm.host_port))]

/-- Claim C2 (counterexample): with a model-service image declaring port 8000
resolved to free host port 9000, the application container's environment is
`MODEL_ENDPOINT=http://localhost:8000` — the declared container port — not
`http://localhost:9000`, the resolved host port. -/
theorem attachContainer_endpoint_counterexample : ¬ c2EndpointAsWritten := by
  intro h
  have hc := h (fun _ => []) (fun s => s) (fun s => s) false c2Pod c2Images c4Model
    "/models/dir/model.gguf" c2Resolve c2Recipe c4Model c2Req c2MsImage
    (by decide) (by decide) rfl c2AppImage (by decide) (by decide)
  revert hc
  decide

/-- Claim C2 (amended: the `MODEL_ENDPOINT` variable points at the model
service's first declared container port, not at the resolved host port): when
attaching containers to a pod, each model-service image receives the model
bind-mount and the model-path plus model-derived environment variables; when a
model-service image with at least one declared port is present, every
non-model-service image receives exactly a `MODEL_ENDPOINT` variable pointing
at that image's first declared port; and a command-based health check is
attached to an image exactly when it declares at least one port, probing that
image's first declared port. -/
theorem attachContainer_spec (modelProps : ModelInfo → List String)
    (rand : String → String) (isQEMUVM : Bool) (podInfo : PodInfo)
    (images : List ImageInfo) (modelInfo : ModelInfo) (modelPath : String) :
    (∀ image ∈ images, image.modelService = true →
      (attachContainer modelProps rand isQEMUVM podInfo images modelInfo modelPath
          image).Mounts =
        [{ Target := "/" ++ basename modelPath, Source := modelPath,
           MountType := "bind", Mode := if isQEMUVM then none else some "Z" }] ∧
      (attachContainer modelProps rand isQEMUVM podInfo images modelInfo modelPath
          image).Env =
        ("MODEL_PATH=/" ++ basename modelPath) :: modelProps modelInfo) ∧
    (∀ ms, images.find? (fun i => i.modelService) = some ms → 0 < ms.ports.length →
      ∀ image ∈ images, image.modelService = false →
        (attachContainer modelProps rand isQEMUVM podInfo images modelInfo modelPath
            image).Env =
          ["MODEL_ENDPOINT=http://localhost:" ++ ms.ports.headD ""]) ∧
    (∀ image ∈ images,
      ((attachContainer modelProps rand isQEMUVM podInfo images modelInfo modelPath
          image).HealthCheck.isSome = true ↔ 0 < image.ports.length) ∧
      (0 < image.ports.length →
        (attachContainer modelProps rand isQEMUVM podInfo images modelInfo modelPath
            image).HealthCheck =
          some
            { Test := ["CMD-SHELL",
                "curl -s localhost:" ++ image.ports.headD "" ++ " > /dev/null"]
              Interval := SECOND * 5
              Retries := 4 * 5
              HCTimeout := some (SECOND * 2) })) := by
  refine ⟨?_, ?_, ?_⟩
  · intro image _ hms
    constructor <;> simp [attachContainer, hms]
  · intro ms hfind hports image _ hnotms
    have hlen : (0 < ms.ports.length) = True := by
      simp [hports]
    simp [attachContainer, hnotms, hfind, hports]
  · intro image _
    constructor
    · by_cases hp : 0 < image.ports.length
      · simp [attachContainer, hp]
      · simp [attachContainer, hp]
    · intro hp
      simp [attachContainer, hp]

/-- Witness for `attachContainer_spec` on the concrete two-image set
`c2Images`: the model-service container gets the bind-mount and model
environment, the application container gets the declared-port endpoint, and
both images declare a port so both get the health check. -/
theorem attachContainer_spec_witness :
    (attachContainer (fun _ => ["MODEL_X=1"]) (fun s => s) false c2Pod c2Images
        c4Model "/models/dir/model.gguf" c2MsImage).Mounts =
      [{ Target := "/model.gguf", Source := "/models/dir/model.gguf",
         MountType := "bind", Mode := some "Z" }] ∧
    (attachContainer (fun _ => ["MODEL_X=1"]) (fun s => s) false c2Pod c2Images
        c4Model "/models/dir/model.gguf" c2AppImage).Env =
      ["MODEL_ENDPOINT=http://localhost:8000"] := by
  constructor
  · have h := ((attachContainer_spec (fun _ => ["MODEL_X=1"]) (fun s => s) false
      c2Pod c2Images c4Model "/models/dir/model.gguf").1 c2MsImage (by decide) rfl).1
    rw [h]
    decide
  · have h := (attachContainer_spec (fun _ => ["MODEL_X=1"]) (fun s => s) false
      c2Pod c2Images c4Model "/models/dir/model.gguf").2.1 c2MsImage (by decide)
      (by decide) c2AppImage (by decide) rfl
    rw [h]
    decide

/-- Claim C10: `createPod` requires at least one non-model-service image —
when every image is marked `modelService` it fails with the error
`no sample app found` without building a pod-create request (so the engine
pod-creation call of line 437 is never reached); when a non-model-service
image exists, the created pod's name is derived from the first such image's
application name. -/
theorem createPod_sample_app_spec (rand : String → String)
    (resolvePort : String → Option String) (recipe : Recipe) (model : ModelInfo)
    (images : List ImageInfo) :
    ((∀ image ∈ images, image.modelService = true) →
      createPod rand resolvePort recipe model images =
        Except.error "no sample app found") ∧
    (∀ sample, images.find? (fun image => !image.modelService) = some sample →
      ∃ req, createPod rand resolvePort recipe model images = Except.ok req ∧
        req.name = rand ("pod-" ++ sample.appName)) := by
  constructor
  · intro hall
    have hnone : images.find? (fun image => !image.modelService) = none := by
      rw [List.find?_eq_none]
      intro img hmem
      simp [hall img hmem]
    simp [createPod, hnone]
  · intro sample hfind
    simp only [createPod, hfind]
    exact ⟨_, rfl, rfl⟩

def c10AllModelImages : List ImageInfo :=
  [{ id := "img-a", modelService := true, ports := ["8000"], appName := "svc-a" },
   { id := "img-b", modelService := true, ports := [], appName := "svc-b" }]

/-- Witness for `createPod_sample_app_spec`: an all-model-service image set
fails with `no sample app found`, and on `c2Images` the pod name is derived
from the sample app's application name. -/
theorem createPod_sample_app_spec_witness :
    createPod (fun s => s) c2Resolve c2Recipe c4Model c10AllModelImages =
      Except.error "no sample app found" ∧
    ∃ req, createPod (fun s => s) c2Resolve c2Recipe c4Model c2Images =
        Except.ok req ∧ req.name = "pod-sample-app" :=
  ⟨(createPod_sample_app_spec (fun s => s) c2Resolve c2Recipe c4Model
      c10AllModelImages).1 (by decide),
   (createPod_sample_app_spec (fun s => s) c2Resolve c2Recipe c4Model c2Images).2
     c2AppImage (by decide)⟩

/-! ## Claim C3: registry and health reconciliation
(applicationManager.ts, lines 706-734) -/

/-- The composite workload key `{recipeId, modelId}`; equality is structural. -/
structure AppKey where
  recipeId : String
  modelId : String
  deriving DecidableEq, Repr

/-- `ApplicationState` as the reconciliation loop reads and writes it. -/
structure ApplicationState where
  recipeId : String
  modelId : String
  pod : PodInfo
  appPorts : List Nat
  modelPorts : List Nat
  health : String
  deriving DecidableEq, Repr

/-- Modelled from the spec: the Identity Registry's `get` (§4.1), a keyed
lookup with structural key equality (`ApplicationRegistry` is not under
`src/`). -/
def rget {α : Type} : List (AppKey × α) → AppKey → Option α
  | [], _ => none
  | kv :: rest, k => if kv.fst = k then some kv.snd else rget rest k

/-- Modelled from the spec: the Identity Registry's `set` (§4.1); insertion
overwrites the entry with the structurally equal key. -/
def rset {α : Type} : List (AppKey × α) → AppKey → α → List (AppKey × α)
  | [], k, v => [(k, v)]
  | kv :: rest, k, v => if kv.fst = k then (k, v) :: rest else kv :: rset rest k v

theorem rget_rset {α : Type} (r : List (AppKey × α)) (k k2 : AppKey) (v : α) :
    rget (rset r k v) k2 = if k = k2 then some v else rget r k2 := by
  induction r with
  | nil =>
    by_cases h : k = k2 <;> simp [rset, rget, h]
  | cons kv rest ih =>
    by_cases h : kv.fst = k
    · by_cases h2 : k = k2
      · simp [rset, rget, h, h2]
      · have h3 : kv.fst ≠ k2 := by
          rw [h]; exact h2
        simp [rset, rget, h, h2, h3]
    · by_cases h2 : kv.fst = k2
      · have h3 : k ≠ k2 := fun he => h (h2.trans he.symm)
        have h4 : k2 ≠ k := Ne.symm h3
        simp [rset, rget, h, h2, h3, h4]
      · simp [rset, rget, h, h2, ih]

/-- The key parsed back from a pod's identity labels (lines 711-712). -/
def podKey (pod : PodInfo) : AppKey :=
  { recipeId := (pod.Labels.lookup LABEL_RECIPE_ID).getD ""
    modelId := (pod.Labels.lookup LABEL_MODEL_ID).getD "" }

/-- Modelled from the spec: `getPodsWithLabels [LABEL_RECIPE_ID,
LABEL_MODEL_ID]` returns the engine pods carrying both identity labels
("list resources filtered by label presence", §6). -/
def hasBothLabels (pod : PodInfo) : Bool :=
  (pod.Labels.lookup LABEL_RECIPE_ID).isSome &&
    (pod.Labels.lookup LABEL_MODEL_ID).isSome

/-- Whether one polling pass sees a difference for pod `p` against registry
`reg`: its key is registered and the observed health or the pod status differs
from the stored entry. -/
def podChanged (getHealth : PodInfo → String)
    (reg : List (AppKey × ApplicationState)) (p : PodInfo) : Bool :=
  match rget reg (podKey p) with
  | none => false
  | some st => (getHealth p != st.health) || (p.Status != st.pod.Status)

/-- The entry value after the loop body processes pod `p` against stored state
`st`: health difference updates health and pod (lines 720-724), otherwise a
status difference updates the pod (lines 726-729), otherwise the entry is
untouched. -/
def updatedState (getHealth : PodInfo → String) (st : ApplicationState)
    (p : PodInfo) : ApplicationState :=
  if getHealth p != st.health then { st with health := getHealth p, pod := p }
  else if p.Status != st.pod.Status then { st with pod := p }
  else st

/-- One iteration of the `for` loop of `checkPodsHealth` (lines 710-730) over
accumulator (registry, changes flag).  An unregistered key is skipped
(line 713-715).  In the source the second branch mutates the aliased stored
object rather than calling `set`; the net registry content is the same. -/
def checkStep (getHealth : PodInfo → String)
    (acc : List (AppKey × ApplicationState) × Bool) (pod : PodInfo) :
    List (AppKey × ApplicationState) × Bool :=
  match rget acc.fst (podKey pod) with
  | none => acc
  | some state =>
    if getHealth pod != state.health then
      (rset acc.fst (podKey pod) { state with health := getHealth pod, pod := pod }, true)
    else if pod.Status != state.pod.Status then
      (rset acc.fst (podKey pod) { state with pod := pod }, true)
    else acc

/-- `checkPodsHealth` (lines 706-734): one reconciliation pass over the
labelled engine pods; the second component is the number of `notify` calls
fired (line 731-733: one exactly when the changes flag ended true). -/
def checkPodsHealth (getHealth : PodInfo → String)
    (reg : List (AppKey × ApplicationState)) (pods : List PodInfo) :
    List (AppKey × ApplicationState) × Nat :=
  let labelled := pods.filter hasBothLabels
  let res := labelled.foldl (checkStep getHealth) (reg, false)
  (res.fst, if res.snd then 1 else 0)

theorem checkStep_snd (g : PodInfo → String)
    (acc : List (AppKey × ApplicationState) × Bool) (pod : PodInfo) :
    (checkStep g acc pod).snd = (acc.snd || podChanged g acc.fst pod) := by
  unfold checkStep podChanged
  rcases h : rget acc.fst (podKey pod) with _ | st
  · simp
  · cases h1 : (g pod != st.health) <;> cases h2 : (pod.Status != st.pod.Status) <;>
      simp [h1, h2]

theorem checkStep_fst_none (g : PodInfo → String)
    (acc : List (AppKey × ApplicationState) × Bool) (pod : PodInfo)
    (h : rget acc.fst (podKey pod) = none) : checkStep g acc pod = acc := by
  simp [checkStep, h]

theorem checkStep_at_key (g : PodInfo → String)
    (acc : List (AppKey × ApplicationState) × Bool) (pod : PodInfo)
    (st : ApplicationState) (h : rget acc.fst (podKey pod) = some st) :
    rget (checkStep g acc pod).fst (podKey pod) = some (updatedState g st pod) := by
  unfold checkStep updatedState
  cases h1 : (g pod != st.health) <;> cases h2 : (pod.Status != st.pod.Status) <;>
    simp [h, h1, h2, rget_rset]

theorem checkStep_other (g : PodInfo → String)
    (acc : List (AppKey × ApplicationState) × Bool) (pod : PodInfo) (k : AppKey)
    (hk : podKey pod ≠ k) :
    rget (checkStep g acc pod).fst k = rget acc.fst k := by
  unfold checkStep
  rcases h : rget acc.fst (podKey pod) with _ | st
  · simp
  · cases h1 : (g pod != st.health) <;> cases h2 : (pod.Status != st.pod.Status) <;>
      simp [h1, h2, rget_rset, hk]

theorem checkStep_isSome (g : PodInfo → String)
    (acc : List (AppKey × ApplicationState) × Bool) (pod : PodInfo) (k : AppKey) :
    (rget (checkStep g acc pod).fst k).isSome = (rget acc.fst k).isSome := by
  by_cases hk : podKey pod = k
  · subst hk
    rcases h : rget acc.fst (podKey pod) with _ | st
    · rw [checkStep_fst_none g acc pod h, h]
    · rw [checkStep_at_key g acc pod st h]
      rfl
  · rw [checkStep_other g acc pod k hk]

theorem checkStep_unchanged (g : PodInfo → String)
    (acc : List (AppKey × ApplicationState) × Bool) (pod : PodInfo)
    (st : ApplicationState) (h : rget acc.fst (podKey pod) = some st)
    (hch : podChanged g acc.fst pod = false) : checkStep g acc pod = acc := by
  unfold podChanged at hch
  rw [h] at hch
  simp only [Bool.or_eq_false_iff] at hch
  simp [checkStep, h, hch.1, hch.2]

theorem fold_flag_true (g : PodInfo → String) :
    ∀ (l : List PodInfo) (acc : List (AppKey × ApplicationState) × Bool),
      acc.snd = true → (l.foldl (checkStep g) acc).snd = true := by
  intro l
  induction l with
  | nil =>
    intro acc h
    simpa using h
  | cons p tl ih =>
    intro acc h
    rw [List.foldl_cons]
    apply ih
    rw [checkStep_snd, h]
    simp

theorem fold_untouched (g : PodInfo → String) :
    ∀ (l : List PodInfo) (acc : List (AppKey × ApplicationState) × Bool) (k : AppKey),
      (∀ p ∈ l, podKey p ≠ k) →
      rget (l.foldl (checkStep g) acc).fst k = rget acc.fst k := by
  intro l
  induction l with
  | nil =>
    intro acc k _
    rfl
  | cons p tl ih =>
    intro acc k hall
    rw [List.foldl_cons]
    rw [ih (checkStep g acc p) k (fun q hq => hall q (List.mem_cons_of_mem _ hq))]
    exact checkStep_other g acc p k (hall p (List.mem_cons_self _ _))

theorem fold_isSome (g : PodInfo → String) :
    ∀ (l : List PodInfo) (acc : List (AppKey × ApplicationState) × Bool) (k : AppKey),
      (rget (l.foldl (checkStep g) acc).fst k).isSome = (rget acc.fst k).isSome := by
  intro l
  induction l with
  | nil =>
    intro acc k
    rfl
  | cons p tl ih =>
    intro acc k
    rw [List.foldl_cons, ih (checkStep g acc p) k]
    exact checkStep_isSome g acc p k

theorem podChanged_congr (g : PodInfo → String)
    (r1 r2 : List (AppKey × ApplicationState)) (p : PodInfo)
    (h : rget r1 (podKey p) = rget r2 (podKey p)) :
    podChanged g r1 p = podChanged g r2 p := by
  unfold podChanged
  rw [h]

theorem fold_main (g : PodInfo → String) :
    ∀ (l : List PodInfo) (r : List (AppKey × ApplicationState)) (c : Bool),
      l.Pairwise (fun p q => podKey p ≠ podKey q) →
      ((l.foldl (checkStep g) (r, c)).snd = (c || l.any (podChanged g r))) ∧
      (∀ k, rget (l.foldl (checkStep g) (r, c)).fst k ≠ rget r k →
        ∃ p, p ∈ l ∧ podKey p = k ∧ podChanged g r p = true) ∧
      (∀ p, p ∈ l → ∀ st, rget r (podKey p) = some st →
        rget (l.foldl (checkStep g) (r, c)).fst (podKey p) =
          some (updatedState g st p)) := by
  intro l
  induction l with
  | nil =>
    intro r c _
    refine ⟨by simp, ?_, ?_⟩
    · intro k hk
      exact absurd rfl hk
    · intro p hp
      simp at hp
  | cons p tl ih =>
    intro r c hpw
    have hhd : ∀ q ∈ tl, podKey p ≠ podKey q := (List.pairwise_cons.mp hpw).1
    have hpw' := (List.pairwise_cons.mp hpw).2
    rcases hr : rget r (podKey p) with _ | st
    · have hstep : checkStep g (r, c) p = (r, c) := checkStep_fst_none g (r, c) p hr
      have hchg : podChanged g r p = false := by
        simp [podChanged, hr]
      obtain ⟨ih1, ih2, ih3⟩ := ih r c hpw'
      rw [List.foldl_cons, hstep]
      refine ⟨by rw [ih1]; simp [hchg], ?_, ?_⟩
      · intro k hk
        obtain ⟨q, hq, hqk, hqc⟩ := ih2 k hk
        exact ⟨q, List.mem_cons_of_mem _ hq, hqk, hqc⟩
      · intro q hq st2 hst2
        rcases List.mem_cons.mp hq with rfl | hq2
        · rw [hr] at hst2
          exact absurd hst2 (by simp)
        · exact ih3 q hq2 st2 hst2
    · cases hchv : podChanged g r p with
      | false =>
        have hstep : checkStep g (r, c) p = (r, c) :=
          checkStep_unchanged g (r, c) p st hr hchv
        obtain ⟨ih1, ih2, ih3⟩ := ih r c hpw'
        rw [List.foldl_cons, hstep]
        refine ⟨by rw [ih1]; simp [hchv], ?_, ?_⟩
        · intro k hk
          obtain ⟨q, hq, hqk, hqc⟩ := ih2 k hk
          exact ⟨q, List.mem_cons_of_mem _ hq, hqk, hqc⟩
        · intro q hq st2 hst2
          rcases List.mem_cons.mp hq with rfl | hq2
          · have hst : st2 = st := by
              rw [hr] at hst2
              exact (Option.some.injEq _ _).mp hst2.symm
            subst hst
            have hup : updatedState g st2 q = st2 := by
              unfold podChanged at hchv
              rw [hr] at hchv
              simp only [Bool.or_eq_false_iff] at hchv
              simp [updatedState, hchv.1, hchv.2]
            rw [fold_untouched g tl (r, c) (podKey q)
              (fun q2 hq2 => Ne.symm (hhd q2 hq2))]
            rw [hup]
            exact hst2
          · exact ih3 q hq2 st2 hst2
      | true =>
        have hkey : rget (checkStep g (r, c) p).fst (podKey p) =
            some (updatedState g st p) := checkStep_at_key g (r, c) p st hr
        have hsnd : (checkStep g (r, c) p).snd = true := by
          rw [checkStep_snd]
          simp [hchv]
        obtain ⟨ih1, ih2, ih3⟩ :=
          ih (checkStep g (r, c) p).fst (checkStep g (r, c) p).snd hpw'
        simp only [Prod.mk.eta] at ih1 ih2 ih3
        rw [List.foldl_cons]
        refine ⟨?_, ?_, ?_⟩
        · rw [fold_flag_true g tl (checkStep g (r, c) p) hsnd]
          simp [hchv]
        · intro k hk
          by_cases hkp : podKey p = k
          · exact ⟨p, List.mem_cons_self _ _, hkp, hchv⟩
          · have hacc : rget (checkStep g (r, c) p).fst k = rget r k :=
              checkStep_other g (r, c) p k hkp
            rw [← hacc] at hk
            obtain ⟨q, hq, hqk, hqc⟩ := ih2 k hk
            refine ⟨q, List.mem_cons_of_mem _ hq, hqk, ?_⟩
            rw [← hqc]
            exact podChanged_congr g r (checkStep g (r, c) p).fst q
              ((checkStep_other g (r, c) p (podKey q)
                (fun he => hkp (he.trans hqk))).symm)
        · intro q hq st2 hst2
          rcases List.mem_cons.mp hq with rfl | hq2
          · have hst : st2 = st := by
              rw [hr] at hst2
              exact (Option.some.injEq _ _).mp hst2.symm
            subst hst
            rw [fold_untouched g tl (checkStep g (r, c) q) (podKey q)
              (fun q2 hq2 => Ne.symm (hhd q2 hq2))]
            exact hkey
          · have hacc : rget (checkStep g (r, c) p).fst (podKey q) =
                rget r (podKey q) :=
              checkStep_other g (r, c) p (podKey q) (hhd q hq2)
            exact ih3 q hq2 st2 (hacc.trans hst2)

/-- Claim C3: one reconciliation pass over the engine pods carrying both
identity labels (1) never creates or removes a registry entry — in particular
a labelled pod whose key is not registered is skipped; (2) changes an entry
only if some labelled pod with that key differs from the stored entry in
observed health or pod status; (3) rewrites the entry of each registered
labelled pod to the health-and-pod (or pod-only) update exactly when health
(or status) differs, leaving it equal otherwise; and (4) fires exactly one
observer notification if any labelled pod differed from its stored entry and
zero notifications if none did. -/
theorem checkPodsHealth_spec (g : PodInfo → String)
    (reg : List (AppKey × ApplicationState)) (pods : List PodInfo)
    (hkeys : (pods.filter hasBothLabels).Pairwise (fun p q => podKey p ≠ podKey q)) :
    (∀ k, (rget (checkPodsHealth g reg pods).fst k).isSome = (rget reg k).isSome) ∧
    (∀ k, rget (checkPodsHealth g reg pods).fst k ≠ rget reg k →
      ∃ p, p ∈ pods.filter hasBothLabels ∧ podKey p = k ∧
        podChanged g reg p = true) ∧
    (∀ p ∈ pods.filter hasBothLabels, ∀ st, rget reg (podKey p) = some st →
      rget (checkPodsHealth g reg pods).fst (podKey p) =
        some (updatedState g st p)) ∧
    ((checkPodsHealth g reg pods).snd =
      if (pods.filter hasBothLabels).any (podChanged g reg) = true then 1 else 0) := by
  obtain ⟨h1, h2, h3⟩ := fold_main g (pods.filter hasBothLabels) reg false hkeys
  refine ⟨?_, h2, h3, ?_⟩
  · intro k
    exact fold_isSome g (pods.filter hasBothLabels) (reg, false) k
  · show (if ((pods.filter hasBothLabels).foldl (checkStep g) (reg, false)).snd
        then 1 else 0) = _
    rw [h1]
    simp

def c3Pod : PodInfo :=
  { Id := "pod-3", engineId := "e1",
    Labels := [(LABEL_RECIPE_ID, "r1"), (LABEL_MODEL_ID, "m1")],
    Status := "Running" }

def c3Key : AppKey := { recipeId := "r1", modelId := "m1" }

def c3State : ApplicationState :=
  { recipeId := "r1", modelId := "m1", pod := c3Pod, appPorts := [9501],
    modelPorts := [9000], health := "starting" }

def c3Health : PodInfo → String := fun _ => "healthy"

/-- Witness for `checkPodsHealth_spec`: one registered pod whose observed
health `healthy` differs from the stored `starting`, so the pass fires exactly
one notification. -/
theorem checkPodsHealth_spec_witness :
    (checkPodsHealth c3Health [(c3Key, c3State)] [c3Pod]).snd = 1 := by
  have h := (checkPodsHealth_spec c3Health [(c3Key, c3State)] [c3Pod]
    (by decide)).2.2.2
  rw [h]
  decide

/-! ## Task ledger (external collaborator, §3 of the spec) and claims C8, C9 -/

structure Task where
  id : Nat
  name : String
  state : String
  error : Option String
  labels : List (String × String)
  deriving DecidableEq, Repr

structure TaskLedger where
  nextId : Nat
  tasks : List Task
  deriving DecidableEq, Repr

/-- Whether a label mapping carries every key/value pair of `query`. -/
def labelsMatch (query lbls : List (String × String)) : Bool :=
  query.all (fun kv => lbls.lookup kv.fst == some kv.snd)

/-- Modelled from the spec: `TaskRegistry.deleteByLabels` (not under `src/`)
deletes every task entry bearing all the given labels — "starting a new
operation for a key must clear prior tasks for that key" (§3). -/
def deleteByLabels (query : List (String × String)) (tl : TaskLedger) : TaskLedger :=
  { tl with tasks := tl.tasks.filter (fun t => !(labelsMatch query t.labels)) }

/-- Modelled from the spec: `TaskRegistry.createTask` records a new entry with
the given name, state and labels (§3); ids are fresh. -/
def createTask (name state : String) (lbls : List (String × String))
    (tl : TaskLedger) : TaskLedger × Task :=
  let t : Task := { id := tl.nextId, name := name, state := state, error := none,
                    labels := lbls }
  ({ nextId := tl.nextId + 1, tasks := tl.tasks ++ [t] }, t)

/-- Modelled from the spec: `TaskRegistry.updateTask` replaces the entry with
the same id. -/
def updateTask (t : Task) (tl : TaskLedger) : TaskLedger :=
  { tl with tasks := tl.tasks.map (fun t0 => if t0.id = t.id then t else t0) }

/-- The label pair correlating tasks with a `(recipe, model)` key. -/
def keyLabels (recipeId modelId : String) : List (String × String) :=
  [("recipe-id", recipeId), ("model-id", modelId)]

def hasKeyLabels (recipeId modelId : String) (t : Task) : Bool :=
  labelsMatch (keyLabels recipeId modelId) t.labels

/-- `clearTasks` (applicationManager.ts, lines 745-751). -/
def clearTasks (recipeId modelId : String) (tl : TaskLedger) : TaskLedger :=
  deleteByLabels (keyLabels recipeId modelId) tl

/-- JavaScript object spread `{...base, ...overrides}` seen through `lookup`:
entries written later win, so the overrides come first. -/
def spread (base overrides : List (String × String)) : List (String × String) :=
  overrides ++ base

/-- The outcome of `stopApplication`: the returned pod, the ledger and
registry afterwards, and the engine stop calls issued. -/
structure StopOutcome where
  pod : PodInfo
  ledger : TaskLedger
  registry : List (AppKey × ApplicationState)
  engineStops : List (String × String)
  deriving DecidableEq, Repr

/-- `stopApplication` (applicationManager.ts, lines 451-482): clear the key's
tasks, locate the pod (`getApplicationPod` throws when absent), return it
directly when its status is `Exited`; otherwise create the `Stopping AI App`
task, stop the pod (`stopOk` is the engine call's outcome, reflected in the
task update of lines 472-476) and re-run the health check over the engine view
`podsAfter`. -/
def stopApplication (stopOk : Bool) (g : PodInfo → String)
    (recipeId modelId : String) (pods podsAfter : List PodInfo)
    (tl : TaskLedger) (reg : List (AppKey × ApplicationState)) :
    Except String StopOutcome :=
  let tl1 := clearTasks recipeId modelId tl
  match findPod recipeId modelId pods with
  | none => Except.error
      ("no pod found with recipe Id " ++ recipeId ++ " and model Id " ++ modelId)
  | some appPod =>
    if appPod.Status = "Exited" then
      Except.ok { pod := appPod, ledger := tl1, registry := reg, engineStops := [] }
    else
      let ct := createTask "Stopping AI App" "loading" (keyLabels recipeId modelId) tl1
      let t2 := if stopOk then
          { ct.snd with state := "success", name := "AI App Stopped" }
        else
          { ct.snd with error := some "Error removing the pod.",
                        name := "Error stopping AI App" }
      Except.ok { pod := appPod
                  ledger := updateTask t2 ct.fst
                  registry := (checkPodsHealth g reg podsAfter).fst
                  engineStops := [(appPod.engineId, appPod.Id)] }

/-- Claim C9: when the tracked pod for the key is `Exited`, `stopApplication`
clears the key's tasks and returns that pod immediately — it issues no engine
stop call, creates no `Stopping AI App` task (the resulting ledger is the
cleared one, whose every task already existed before), and leaves the registry
entry and the engine pod untouched. -/
theorem stopApplication_exited_frame (stopOk : Bool) (g : PodInfo → String)
    (recipeId modelId : String) (pods podsAfter : List PodInfo) (tl : TaskLedger)
    (reg : List (AppKey × ApplicationState)) (pod : PodInfo)
    (hfind : findPod recipeId modelId pods = some pod)
    (hexit : pod.Status = "Exited") :
    stopApplication stopOk g recipeId modelId pods podsAfter tl reg =
      Except.ok { pod := pod, ledger := clearTasks recipeId modelId tl,
                  registry := reg, engineStops := [] } ∧
    ∀ t ∈ (clearTasks recipeId modelId tl).tasks, t ∈ tl.tasks := by
  constructor
  · simp [stopApplication, hfind, hexit]
  · intro t ht
    exact (List.mem_filter.mp ht).1

def c9Pod : PodInfo :=
  { Id := "pod-9", engineId := "e1",
    Labels := [(LABEL_RECIPE_ID, "r1"), (LABEL_MODEL_ID, "m1")],
    Status := "Exited" }

/-- Witness for `stopApplication_exited_frame`: a single exited pod is returned
as is, with no stop call and no new task. -/
theorem stopApplication_exited_frame_witness :
    stopApplication true c3Health "r1" "m1" [c9Pod] []
        { nextId := 0, tasks := [] } [] =
      Except.ok { pod := c9Pod, ledger := { nextId := 0, tasks := [] },
                  registry := [], engineStops := [] } := by
  have h := (stopApplication_exited_frame true c3Health "r1" "m1" [c9Pod] []
    { nextId := 0, tasks := [] } [] c9Pod (by decide) rfl).1
  rw [h]
  rfl

/-- One pipeline stage of `pullApplication`, reduced to its task-ledger
footprint: the task name and labels it records, and the state and error
message its task is left with when the stage throws (the source is not
uniform: some stages mark their task `error`, one sets only the error message,
and the pod-start stage never updates its task at all). -/
structure Stage where
  name : String
  lbls : List (String × String)
  failState : String
  failError : Option String
  deriving DecidableEq, Repr

/-- The task-creating stages of `pullApplication`/`initApplication` in
execution order (lines 127-250), each with its failure footprint:
checkout (via `cloneApplication` and `doCheckout`, labels spread with the key
and `git: checkout`; the catch of lines 590-594 sets state `error`);
configuration loading (line 211 — called without a labels argument, so this
task carries no labels; the catches of lines 511-515 and 523-527 set only
`task.error`, the state stays `loading`); model download, model upload and
image build (external managers — modelled from the spec §4.4, "a failure at
any stage marks that stage's task as `error`" — each called with the key
labels, lines 214-237); pod creation (`createApplicationPod`, the catches of
lines 308-315 and 320-327 set state `error`); and pod start (`runApplication`,
lines 257-276 — no try/catch, so when `startPod` or `waitContainerIsRunning`
throws, the `Starting AI App` task is never updated and keeps its created
`loading` state with no error message). -/
def pipelineStages (labels : List (String × String)) (recipeId modelId : String) :
    List Stage :=
  [ { name := "Checking out repository"
      lbls := spread labels
        [("model-id", modelId), ("recipe-id", recipeId), ("git", "checkout")]
      failState := "error", failError := some "failed" },
    { name := "Loading configuration", lbls := []
      failState := "loading", failError := some "failed" },
    { name := "Downloading model", lbls := spread labels (keyLabels recipeId modelId)
      failState := "error", failError := some "failed" },
    { name := "Uploading model", lbls := spread labels (keyLabels recipeId modelId)
      failState := "error", failError := some "failed" },
    { name := "Building images", lbls := spread labels (keyLabels recipeId modelId)
      failState := "error", failError := some "failed" },
    { name := "Creating AI App", lbls := spread labels (keyLabels recipeId modelId)
      failState := "error", failError := some "failed" },
    { name := "Starting AI App", lbls := spread labels (keyLabels recipeId modelId)
      failState := "loading", failError := none } ]

/-- Sequential fail-stop execution of the stages over the ledger: stage `i`
creates its task in `loading` state, marks it `success` and continues when
`outcome i` holds, otherwise leaves it in the stage's failure state and aborts
(failures re-throw and are not retried, §4.4).  For the pod-start stage,
whose failure footprint is `loading`/no message, the failure update equals the
task as created — exactly the source's no-update behaviour. -/
def runStagesGo (outcome : Nat → Bool) : List Stage → Nat → TaskLedger → TaskLedger
  | [], _, tl => tl
  | s :: rest, i, tl =>
    let ct := createTask s.name "loading" s.lbls tl
    if outcome i then
      runStagesGo outcome rest (i + 1) (updateTask { ct.snd with state := "success" } ct.fst)
    else
      updateTask { ct.snd with state := s.failState, error := s.failError } ct.fst

/-- The task-ledger effect of `pullApplication` (lines 127-159): first the
`deleteByLabels` of lines 129-132 for the key, then the pipeline stages in
order. -/
def pullApplicationTasks (outcome : Nat → Bool) (labels : List (String × String))
    (recipeId modelId : String) (tl : TaskLedger) : TaskLedger :=
  runStagesGo outcome (pipelineStages labels recipeId modelId) 0
    (deleteByLabels (keyLabels recipeId modelId) tl)

/-- The task stage `s` leaves in the ledger when it succeeds (`ok`) or fails. -/
def stageTask (s : Stage) (ok : Bool) (base : Nat) : Task :=
  if ok then
    { id := base, name := s.name, state := "success", error := none, labels := s.lbls }
  else
    { id := base, name := s.name, state := s.failState, error := s.failError,
      labels := s.lbls }

/-- The tasks a fail-stop run over `stages` (numbered from `i`, ids from
`base`) appends to the ledger. -/
def newTasks (outcome : Nat → Bool) : List Stage → Nat → Nat → List Task
  | [], _, _ => []
  | s :: rest, i, base =>
    if outcome i then stageTask s true base :: newTasks outcome rest (i + 1) (base + 1)
    else [stageTask s false base]

/-- The first failing stage of a fail-stop run, if any. -/
def firstFail (outcome : Nat → Bool) : List Stage → Nat → Option Stage
  | [], _ => none
  | s :: rest, i => if outcome i then firstFail outcome rest (i + 1) else some s

/-- The number of error-state tasks bearing the key's labels. -/
def countKeyErrors (recipeId modelId : String) (l : List Task) : Nat :=
  (l.filter (fun t => hasKeyLabels recipeId modelId t && t.state == "error")).length

theorem map_id_of_mem {α : Type} (l : List α) (f : α → α) (h : ∀ x ∈ l, f x = x) :
    l.map f = l := by
  induction l with
  | nil => rfl
  | cons a as ih =>
    rw [List.map_cons, h a (List.mem_cons_self _ _),
      ih (fun x hx => h x (List.mem_cons_of_mem _ hx))]

theorem runStagesGo_tasks (outcome : Nat → Bool) :
    ∀ (stages : List Stage) (i : Nat) (tl : TaskLedger),
      (∀ t ∈ tl.tasks, t.id < tl.nextId) →
      (runStagesGo outcome stages i tl).tasks =
        tl.tasks ++ newTasks outcome stages i tl.nextId := by
  intro stages
  induction stages with
  | nil =>
    intro i tl _
    simp [runStagesGo, newTasks]
  | cons s rest ih =>
    intro i tl hids
    cases ho : outcome i with
    | true =>
      have hstep_tasks : (updateTask
          { (createTask s.name "loading" s.lbls tl).snd with state := "success" }
          (createTask s.name "loading" s.lbls tl).fst).tasks =
          tl.tasks ++ [stageTask s true tl.nextId] := by
        unfold createTask updateTask stageTask
        simp only [List.map_append]
        congr 1
        · exact map_id_of_mem _ _
            (fun x hx => if_neg (Nat.ne_of_lt (hids x hx)))
        · simp
      have hstep_next : (updateTask
          { (createTask s.name "loading" s.lbls tl).snd with state := "success" }
          (createTask s.name "loading" s.lbls tl).fst).nextId = tl.nextId + 1 := rfl
      have hids2 : ∀ t ∈ (updateTask
          { (createTask s.name "loading" s.lbls tl).snd with state := "success" }
          (createTask s.name "loading" s.lbls tl).fst).tasks,
          t.id < (updateTask
          { (createTask s.name "loading" s.lbls tl).snd with state := "success" }
          (createTask s.name "loading" s.lbls tl).fst).nextId := by
        rw [hstep_tasks, hstep_next]
        intro t ht
        rcases List.mem_append.mp ht with h1 | h2
        · exact Nat.lt_succ_of_lt (hids t h1)
        · have ht2 : t = stageTask s true tl.nextId := by
            simpa using h2
          rw [ht2]
          simp [stageTask]
      rw [runStagesGo]
      simp only [ho, if_pos]
      rw [ih (i + 1) _ hids2, hstep_tasks, hstep_next]
      simp [newTasks, ho]
    | false =>
      rw [runStagesGo]
      simp only [ho, Bool.false_eq_true, if_false]
      have hstep_tasks : (updateTask { (createTask s.name "loading" s.lbls tl).snd with state := s.failState, error := s.failError } (createTask s.name "loading" s.lbls tl).fst).tasks =
          tl.tasks ++ [stageTask s false tl.nextId] := by
        unfold createTask updateTask stageTask
        simp only [List.map_append]
        congr 1
        · exact map_id_of_mem _ _
            (fun x hx => if_neg (Nat.ne_of_lt (hids x hx)))
        · simp
      rw [hstep_tasks]
      simp [newTasks, ho]

theorem newTasks_id_ge (outcome : Nat → Bool) :
    ∀ (stages : List Stage) (i base : Nat) (t : Task),
      t ∈ newTasks outcome stages i base → base ≤ t.id := by
  intro stages
  induction stages with
  | nil =>
    intro i base t ht
    simp [newTasks] at ht
  | cons s rest ih =>
    intro i base t ht
    rw [newTasks] at ht
    cases ho : outcome i
    · rw [ho] at ht
      simp at ht
      rw [ht]
      simp [stageTask]
    · rw [ho] at ht
      simp only [if_pos] at ht
      rcases List.mem_cons.mp ht with rfl | h2
      · simp [stageTask]
      · have := ih (i + 1) (base + 1) t h2
        omega

theorem countKeyErrors_append (r m : String) (l1 l2 : List Task) :
    countKeyErrors r m (l1 ++ l2) = countKeyErrors r m l1 + countKeyErrors r m l2 := by
  simp [countKeyErrors, List.filter_append]

theorem countKeyErrors_delete (r m : String) (tl : TaskLedger) :
    countKeyErrors r m ((deleteByLabels (keyLabels r m) tl).tasks) = 0 := by
  unfold countKeyErrors deleteByLabels
  rw [List.length_eq_zero, List.filter_eq_nil_iff]
  intro t ht
  have hsurv := (List.mem_filter.mp ht).2
  simp only [Bool.not_eq_true'] at hsurv
  simp [hasKeyLabels, hsurv]

theorem countKeyErrors_newTasks (r m : String) (outcome : Nat → Bool) :
    ∀ (stages : List Stage) (i base : Nat),
      countKeyErrors r m (newTasks outcome stages i base) =
        (match firstFail outcome stages i with
          | none => 0
          | some s =>
            if (labelsMatch (keyLabels r m) s.lbls && s.failState == "error") = true
            then 1 else 0) := by
  intro stages
  induction stages with
  | nil =>
    intro i base
    simp [newTasks, firstFail, countKeyErrors]
  | cons s rest ih =>
    intro i base
    cases ho : outcome i
    · rw [newTasks, firstFail, ho]
      simp only [Bool.false_eq_true, if_false]
      by_cases hl : (labelsMatch (keyLabels r m) s.lbls && s.failState == "error") = true <;>
        simp [countKeyErrors, stageTask, hasKeyLabels, hl]
    · rw [newTasks, firstFail, ho]
      simp only [if_pos]
      rw [← ih (i + 1) (base + 1)]
      simp [countKeyErrors, List.filter_cons, stageTask, hasKeyLabels]

theorem labelsMatch_spread_key (r m : String) (base : List (String × String)) :
    labelsMatch (keyLabels r m) (spread base (keyLabels r m)) = true := by
  have h1 : ("model-id" == "recipe-id") = false := by decide
  simp [labelsMatch, keyLabels, spread, List.lookup, h1]

theorem labelsMatch_checkout (r m : String) (base : List (String × String)) :
    labelsMatch (keyLabels r m)
      (spread base [("model-id", m), ("recipe-id", r), ("git", "checkout")]) = true := by
  have h1 : ("recipe-id" == "model-id") = false := by decide
  simp [labelsMatch, keyLabels, spread, List.lookup, h1]

/-- Claim C8 (amended): starting a new pull for a `(recipe, model)` key first
deletes every task bearing the key's `recipe-id`/`model-id` labels, before the
pipeline creates any task — afterwards no pre-existing key-labelled task
survives; a run whose first failure happens at a stage that both carries the
key labels and marks its task `error` (checkout, download, upload, build, pod
creation — every stage except configuration loading and pod start) leaves
exactly one error-state task bearing the key's labels; a run with no failure
leaves zero; and a run whose first failure is the configuration-loading stage
(its task carries no labels, line 211) or the pod-start stage (`runApplication`
has no try/catch, so its task stays `loading`, lines 257-276) also leaves
zero. -/
theorem pullApplication_task_supersession (outcome : Nat → Bool)
    (labels : List (String × String)) (recipeId modelId : String) (tl : TaskLedger)
    (hids : ∀ t ∈ tl.tasks, t.id < tl.nextId) :
    (∀ t ∈ tl.tasks, hasKeyLabels recipeId modelId t = true →
      t ∉ (pullApplicationTasks outcome labels recipeId modelId tl).tasks) ∧
    ((∀ i, i < 7 → outcome i = true) →
      countKeyErrors recipeId modelId
        (pullApplicationTasks outcome labels recipeId modelId tl).tasks = 0) ∧
    (∀ k, k < 7 → k ≠ 1 → k ≠ 6 → (∀ j, j < k → outcome j = true) →
      outcome k = false →
      countKeyErrors recipeId modelId
        (pullApplicationTasks outcome labels recipeId modelId tl).tasks = 1) ∧
    (∀ k, k = 1 ∨ k = 6 → (∀ j, j < k → outcome j = true) → outcome k = false →
      countKeyErrors recipeId modelId
        (pullApplicationTasks outcome labels recipeId modelId tl).tasks = 0) := by
  have hids1 : ∀ t ∈ (deleteByLabels (keyLabels recipeId modelId) tl).tasks,
      t.id < (deleteByLabels (keyLabels recipeId modelId) tl).nextId := by
    intro t ht
    exact hids t (List.mem_filter.mp ht).1
  have htasks : (pullApplicationTasks outcome labels recipeId modelId tl).tasks =
      (deleteByLabels (keyLabels recipeId modelId) tl).tasks ++
        newTasks outcome (pipelineStages labels recipeId modelId) 0 tl.nextId := by
    unfold pullApplicationTasks
    exact runStagesGo_tasks outcome _ 0 _ hids1
  refine ⟨?_, ?_, ?_, ?_⟩
  · intro t ht hkey
    rw [htasks]
    intro hmem
    rcases List.mem_append.mp hmem with h1 | h2
    · have hsurv := (List.mem_filter.mp h1).2
      simp only [Bool.not_eq_true'] at hsurv
      simp only [hasKeyLabels] at hkey
      rw [hkey] at hsurv
      exact Bool.true_eq_false.mp hsurv
    · have hge := newTasks_id_ge outcome _ 0 tl.nextId t h2
      exact absurd (hids t ht) (Nat.not_lt.mpr hge)
  · intro hall
    rw [htasks, countKeyErrors_append, countKeyErrors_delete,
      countKeyErrors_newTasks]
    have hff : firstFail outcome (pipelineStages labels recipeId modelId) 0 = none := by
      simp [pipelineStages, firstFail, hall 0 (by omega), hall 1 (by omega),
        hall 2 (by omega), hall 3 (by omega), hall 4 (by omega),
        hall 5 (by omega), hall 6 (by omega)]
    rw [hff]
    simp
  · intro k hk hk1 hk6 hprev hfail
    rw [htasks, countKeyErrors_append, countKeyErrors_delete,
      countKeyErrors_newTasks]
    interval_cases k
    · simp [pipelineStages, firstFail, hfail, labelsMatch_checkout]
    · exact absurd rfl hk1
    · simp [pipelineStages, firstFail, hfail, hprev 0 (by omega),
        hprev 1 (by omega), labelsMatch_spread_key]
    · simp [pipelineStages, firstFail, hfail, hprev 0 (by omega),
        hprev 1 (by omega), hprev 2 (by omega), labelsMatch_spread_key]
    · simp [pipelineStages, firstFail, hfail, hprev 0 (by omega),
        hprev 1 (by omega), hprev 2 (by omega), hprev 3 (by omega),
        labelsMatch_spread_key]
    · simp [pipelineStages, firstFail, hfail, hprev 0 (by omega),
        hprev 1 (by omega), hprev 2 (by omega), hprev 3 (by omega),
        hprev 4 (by omega), labelsMatch_spread_key]
    · exact absurd rfl hk6
  · intro k hk hprev hfail
    rw [htasks, countKeyErrors_append, countKeyErrors_delete,
      countKeyErrors_newTasks]
    have hload : (("loading" : String) == "error") = false := by decide
    rcases hk with rfl | rfl
    · simp [pipelineStages, firstFail, hfail, hprev 0 (by omega), hload]
    · simp [pipelineStages, firstFail, hfail, hprev 0 (by omega),
        hprev 1 (by omega), hprev 2 (by omega), hprev 3 (by omega),
        hprev 4 (by omega), hprev 5 (by omega), hload]

/-- Claim C8 as written, failure part: any failing run leaves exactly one
error-state task bearing the key's labels. -/
def c8FailureAsWritten : Prop :=
  ∀ (outcome : Nat → Bool) (labels : List (String × String))
    (recipeId modelId : String) (tl : TaskLedger),
    (∀ t ∈ tl.tasks, t.id < tl.nextId) →
    (∃ k, k < 7 ∧ outcome k = false ∧ ∀ j, j < k → outcome j = true) →
    countKeyErrors recipeId modelId
      (pullApplicationTasks outcome labels recipeId modelId tl).tasks = 1

/-- Only stage 0 (checkout) succeeds; stage 1 (configuration loading) fails. -/
def c8LoadFailOutcome : Nat → Bool := fun i => decide (i < 1)

/-- Claim C8 (counterexample): when the first failure is the
configuration-loading stage, whose task is created without labels
(`getConfigAndFilterContainers` is called at line 211 with no labels
argument), the run leaves zero error-state tasks bearing the key's labels,
not one. -/
theorem pullApplication_error_chain_counterexample : ¬ c8FailureAsWritten := by
  intro h
  have hc := h c8LoadFailOutcome [] "r1" "m1" { nextId := 0, tasks := [] }
    (by simp)
    ⟨1, by omega, by decide, by
      intro j hj
      have hj0 : j = 0 := by omega
      rw [hj0]
      decide⟩
  revert hc
  decide

def c8Tl : TaskLedger :=
  { nextId := 1,
    tasks := [{ id := 0, name := "Pulling old", state := "error", error := some "x",
                labels := [("recipe-id", "r1"), ("model-id", "m1")] }] }

/-- Stages 0 and 1 succeed, stage 2 (the model download) fails. -/
def c8Outcome : Nat → Bool := fun i => decide (i < 2)

/-- Witness for `pullApplication_task_supersession`: re-running the pipeline
over a ledger still holding the previous failed chain, with a failure at the
download stage, leaves exactly one key-labelled error task. -/
theorem pullApplication_task_supersession_witness :
    countKeyErrors "r1" "m1"
      (pullApplicationTasks c8Outcome [("trackingId", "t1")] "r1" "m1" c8Tl).tasks = 1 :=
  (pullApplication_task_supersession c8Outcome [("trackingId", "t1")] "r1" "m1" c8Tl
      (by decide)).2.2.1 2 (by omega) (by omega) (by omega)
    (by
      intro j hj
      simp [c8Outcome]
      omega)
    (by decide)

end AIStudio
